import Mathlib

/-!
Verification development for the CaliforniaSchoolsDashboardAPI client.

The definitions below are a shallow embedding of the repository sources:
  * summaryCard.hh / summaryCard.cpp   — the SummaryCard record and decoder,
  * CaliforniaDashboardAPI.hh / .cpp   — the fetch engine (worker pool,
    retry loop, post-transport checks, token-bucket fast path),
  * main.cpp                           — external collaborators (not needed
    by the properties proved here).

JSON values mirror the storage model of the JSON library used by the code
(nlohmann::json): unsigned 64-bit integers, signed 64-bit integers and
floating-point numbers are three distinct number kinds.  Floating-point
payloads are carried exactly as rationals; no verified property depends on
rounding, and the textual formatting of floats in `Json.dump` is a
placeholder (no property inspects it).  Machine-integer conversions
(`static_cast` between int / long / size_t) are modelled with explicit
two's-complement wrapping.  C++ exceptions are modelled with `Except`:
`SummaryCard.parseRawDataTry` is the body of the `try` block (the parse
error escapes), and `SummaryCard.parseRawDataE` adds the `catch` handler.
-/

/-- Number kinds of the JSON library: `number_unsigned` (uint64, so the
payload is < 2^64 for every value the library can actually store),
`number_integer` (int64) and `number_float` (double, carried as `Rat`). -/
inductive JNum where
  | uns (n : Nat)
  | int (z : Int)
  | flt (q : Rat)

/-- JSON values as stored by the JSON library. -/
inductive Json where
  | null
  | bool (b : Bool)
  | num (n : JNum)
  | str (s : String)
  | arr (elems : List Json)
  | obj (members : List (String × Json))

/-- Truncation of a rational toward zero: the C++ floating→integral
conversion (defined behaviour for in-range values). -/
def truncRat (q : Rat) : Int := Int.tdiv q.num (q.den : Int)

/-- Reinterpretation of an integer as a signed 32-bit value
(two's-complement wrap): the effect of `static_cast<int>`. -/
def wrap32 (z : Int) : Int :=
  let m := z % 4294967296
  if m < 2147483648 then m else m - 4294967296

/-- Reinterpretation of an integer as a signed 64-bit value:
the effect of `static_cast<long>` on LP64 platforms. -/
def wrap64 (z : Int) : Int :=
  let m := z % 18446744073709551616
  if m < 9223372036854775808 then m else m - 18446744073709551616

/-- Conversion of an integer to `size_t` (unsigned 64-bit wrap):
the effect of `static_cast<size_t>`. -/
def toSizeT (z : Int) : Nat := (z % 18446744073709551616).toNat

/-- `static_cast<int>` applied to a `size_t` value
(summaryCard.cpp:224 casts `ind.indicatorId` this way). -/
def intOfSizeT (n : Nat) : Int := wrap32 (n : Int)

/-- `get<int>()` on a stored JSON number. -/
def JNum.getInt : JNum → Int
  | .uns n => wrap32 (n : Int)
  | .int z => wrap32 z
  | .flt q => wrap32 (truncRat q)

/-- `get<long>()` on a stored JSON number. -/
def JNum.getLong : JNum → Int
  | .uns n => wrap64 (n : Int)
  | .int z => wrap64 z
  | .flt q => wrap64 (truncRat q)

/-- `get<size_t>()` on a stored JSON number. -/
def JNum.getSizeT : JNum → Nat
  | .uns n => n % 18446744073709551616
  | .int z => toSizeT z
  | .flt q => toSizeT (truncRat q)

/-- `get<float>()` on a stored JSON number (float rounding is not
modelled; no verified property depends on it). -/
def JNum.getFloat : JNum → Rat
  | .uns n => (n : Rat)
  | .int z => (z : Rat)
  | .flt q => q

def Json.isNull : Json → Bool
  | .null => true
  | _ => false

def Json.isBoolean : Json → Bool
  | .bool _ => true
  | _ => false

def Json.isString : Json → Bool
  | .str _ => true
  | _ => false

def Json.isNumber : Json → Bool
  | .num _ => true
  | _ => false

def Json.isNumberUnsigned : Json → Bool
  | .num (.uns _) => true
  | _ => false

def Json.isObj : Json → Bool
  | .obj _ => true
  | _ => false

def Json.isArr : Json → Bool
  | .arr _ => true
  | _ => false

/-- Membership lookup on a JSON object (`find` on the underlying map);
`none` on non-objects, mirroring `contains` returning false there. -/
def jLookup (o : Json) (key : String) : Option Json :=
  match o with
  | .obj members => (members.find? (fun p => p.1 == key)).map (fun p => p.2)
  | _ => none

/-- `obj.contains(key)`. -/
def jContains (o : Json) (key : String) : Bool := (jLookup o key).isSome

/-- `obj[key]` const access; the decoder only uses it under a `contains`
guard, so the `Json.null` fallback is never observable. -/
def jIndex (o : Json) (key : String) : Json := (jLookup o key).getD Json.null

def Json.getStr : Json → String
  | .str s => s
  | _ => ""

def Json.getBool : Json → Bool
  | .bool b => b
  | _ => false

def Json.getNum : Json → JNum
  | .num n => n
  | _ => JNum.uns 0

def hexDigit (n : Nat) : Char :=
  if n < 10 then Char.ofNat (48 + n) else Char.ofNat (87 + n)

/-- Escaping of one character in the JSON serializer. -/
def escapeJsonChar (c : Char) : String :=
  if c = '"' then ("\\\"")
  else if c = '\\' then ("\\\\")
  else if c = '\n' then ("\\n")
  else if c = '\t' then ("\\t")
  else if c = '\r' then ("\\r")
  else if c = Char.ofNat 8 then ("\\b")
  else if c = Char.ofNat 12 then ("\\f")
  else if c.toNat < 32 then
    ("\\u00") ++ String.singleton (hexDigit (c.toNat / 16))
      ++ String.singleton (hexDigit (c.toNat % 16))
  else String.singleton c

def escapeJsonString (s : String) : String :=
  ("\"") ++ String.join (s.toList.map escapeJsonChar) ++ ("\"")

/-- Serialization of a stored number.  Integer kinds print exactly as the
library does; the float formatting is a placeholder (no verified property
inspects the serialization of a float). -/
def JNum.dumpNum : JNum → String
  | .uns n => toString n
  | .int z => toString z
  | .flt q => toString q.num ++ ("/") ++ toString q.den

mutual

/-- `value.dump()`: the compact JSON serialization used by `safeString`
when a string field receives a non-string value. -/
def Json.dump : Json → String
  | .null => ("null")
  | .bool b => if b then ("true") else ("false")
  | .num n => JNum.dumpNum n
  | .str s => escapeJsonString s
  | .arr elems => ("[") ++ dumpElems elems ++ ("]")
  | .obj members => ("\x7b") ++ dumpMembers members ++ ("\x7d")

def dumpElems : List Json → String
  | [] => ("")
  | [x] => Json.dump x
  | x :: y :: t => Json.dump x ++ (",") ++ dumpElems (y :: t)

def dumpMembers : List (String × Json) → String
  | [] => ("")
  | [(k, v)] => escapeJsonString k ++ (":") ++ Json.dump v
  | (k, v) :: q :: t =>
      escapeJsonString k ++ (":") ++ Json.dump v ++ (",") ++ dumpMembers (q :: t)

end

/-- `json::clear()`: zeroes the value but keeps its stored type. -/
def Json.clearJson : Json → Json
  | .null => .null
  | .bool _ => .bool false
  | .num (.uns _) => .num (.uns 0)
  | .num (.int _) => .num (.int 0)
  | .num (.flt _) => .num (.flt 0)
  | .str _ => .str ("")
  | .arr _ => .arr []
  | .obj _ => .obj []

/-- summaryCard.cpp:175 `safeString` (the C++ default value of
`defaultVal` is the empty string; call sites pass it explicitly here). -/
def safeString (o : Json) (key : String) (defaultVal : String) : String :=
  if jContains o key = false ∨ (jIndex o key).isNull = true then defaultVal
  else if (jIndex o key).isString = true then (jIndex o key).getStr
  else Json.dump (jIndex o key)

/-- summaryCard.cpp:182 `safeInt`. -/
def safeInt (o : Json) (key : String) (defaultVal : Int) : Int :=
  if jContains o key = false ∨ (jIndex o key).isNull = true then defaultVal
  else if (jIndex o key).isNumber = true then ((jIndex o key).getNum).getInt
  else defaultVal

/-- summaryCard.cpp:188 `safeLong`. -/
def safeLong (o : Json) (key : String) (defaultVal : Int) : Int :=
  if jContains o key = false ∨ (jIndex o key).isNull = true then defaultVal
  else if (jIndex o key).isNumber = true then ((jIndex o key).getNum).getLong
  else defaultVal

/-- summaryCard.cpp:194 `safeSizeT`: unsigned numbers read directly,
other numbers go through `static_cast<size_t>(get<long>())`. -/
def safeSizeT (o : Json) (key : String) (defaultVal : Nat) : Nat :=
  if jContains o key = false ∨ (jIndex o key).isNull = true then defaultVal
  else if (jIndex o key).isNumberUnsigned = true then ((jIndex o key).getNum).getSizeT
  else if (jIndex o key).isNumber = true then toSizeT (((jIndex o key).getNum).getLong)
  else defaultVal

/-- summaryCard.cpp:201 `safeFloat`. -/
def safeFloat (o : Json) (key : String) (defaultVal : Rat) : Rat :=
  if jContains o key = false ∨ (jIndex o key).isNull = true then defaultVal
  else if (jIndex o key).isNumber = true then ((jIndex o key).getNum).getFloat
  else defaultVal

/-- summaryCard.cpp:207 `safeBool`. -/
def safeBool (o : Json) (key : String) (defaultVal : Bool) : Bool :=
  if jContains o key = false ∨ (jIndex o key).isNull = true then defaultVal
  else if (jIndex o key).isBoolean = true then (jIndex o key).getBool
  else defaultVal

/-- SummaryCard::indicator (summaryCard.hh:21).  The C++ struct leaves its
primitive fields indeterminate when default-initialised; the embedding
gives them value-initialised defaults (the decoder assigns every field it
reads, and no verified property reads an unassigned field). -/
structure Indicator where
  indicatorCategory : String := ""
  primary : Json := Json.null
  secondary : Json := Json.null
  cdsCode : String := ""
  indicatorId : Nat := 0
  status : Rat := 0
  change : Rat := 0
  changeId : Int := 0
  statusId : Int := 0
  performance : Int := 0
  totalGroups : Nat := 0
  red : Int := 0
  orange : Int := 0
  yellow : Int := 0
  green : Int := 0
  blue : Int := 0
  count : Int := 0
  studentGroup : String := ""
  schoolYearId : Nat := 0
  isPrivateData : Bool := false

/-- The in-class initialiser of `SummaryCard::indicatorsMap`
(summaryCard.hh:10): the known id→category table. -/
def defaultIndicatorsMap : List (Int × String) :=
  [(1, ("CHRONIC_ABSENTEEISM")),
   (2, ("SUSPENSION_RATE")),
   (3, ("ENGLISH_LEARNER_PROGRESS")),
   (4, ("GRADUATION_RATE")),
   (5, ("COLLEGE_CAREER_INDICATOR")),
   (6, ("ELA_POINTS_ABOVE_BELOW")),
   (7, ("MATHEMATICS")),
   (8, ("SCIENCE"))]

/-- `std::map<int, std::string>::find` on the association list. -/
def lookupAssocInt : List (Int × String) → Int → Option String
  | [], _ => none
  | (a, b) :: t, k => if a = k then some b else lookupAssocInt t k

/-- The spec's id→category table (§6 of the specification), written from
the spec's words for comparison with the decoder's behaviour: ids 1..8
name the categories, every other id maps to UNKNOWN. -/
def specIndicatorCategory (r : Nat) : String :=
  if r = 1 then ("CHRONIC_ABSENTEEISM")
  else if r = 2 then ("SUSPENSION_RATE")
  else if r = 3 then ("ENGLISH_LEARNER_PROGRESS")
  else if r = 4 then ("GRADUATION_RATE")
  else if r = 5 then ("COLLEGE_CAREER_INDICATOR")
  else if r = 6 then ("ELA_POINTS_ABOVE_BELOW")
  else if r = 7 then ("MATHEMATICS")
  else if r = 8 then ("SCIENCE")
  else ("UNKNOWN")

/-- SummaryCard::parseIndicator (summaryCard.cpp:213).  The id→category
table is the card member `indicatorsMap`, passed explicitly here. -/
def parseIndicator (imap : List (Int × String)) (entry : Json) : Indicator :=
  if entry.isObj = false then {}
  else
    let id := safeSizeT entry ("indicatorId") 0
    let cat :=
      match lookupAssocInt imap (intOfSizeT id) with
      | some s => s
      | none => ("UNKNOWN")
    let primaryJ := if jContains entry ("primary") then jIndex entry ("primary") else Json.null
    let secondaryJ := if jContains entry ("secondary") then jIndex entry ("secondary") else Json.null
    if primaryJ.isNull = false ∧ primaryJ.isObj = true then
      { indicatorId := id, indicatorCategory := cat,
        primary := primaryJ, secondary := secondaryJ,
        cdsCode := safeString primaryJ ("cdsCode") (""),
        status := safeFloat primaryJ ("status") 0,
        change := safeFloat primaryJ ("change") 0,
        changeId := safeInt primaryJ ("changeId") 0,
        statusId := safeInt primaryJ ("statusId") 0,
        performance := safeInt primaryJ ("performance") 0,
        totalGroups := safeSizeT primaryJ ("totalGroups") 0,
        red := safeInt primaryJ ("red") 0,
        orange := safeInt primaryJ ("orange") 0,
        yellow := safeInt primaryJ ("yellow") 0,
        green := safeInt primaryJ ("green") 0,
        blue := safeInt primaryJ ("blue") 0,
        count := safeLong primaryJ ("count") 0,
        studentGroup := safeString primaryJ ("studentGroup") (""),
        schoolYearId := safeSizeT primaryJ ("schoolYearId") 0,
        isPrivateData := safeBool primaryJ ("isPrivateData") false }
    else
      { indicatorId := id, indicatorCategory := cat,
        primary := primaryJ, secondary := secondaryJ }

/-- `categoryToIndicatorMap[cat] = ind`: insert-or-overwrite on the
association list (the C++ `std::map` orders by key; key order is not
observed by any verified property). -/
def insertAssoc (k : String) (v : Indicator) :
    List (String × Indicator) → List (String × Indicator)
  | [] => [(k, v)]
  | (a, b) :: t => if a = k then (a, v) :: t else (a, b) :: insertAssoc k v t

/-- The loop of SummaryCard::parseIndicators (summaryCard.cpp:266):
non-object entries are skipped, each parsed indicator is recorded in
`categoryToIndicatorMap` and appended to the result. -/
def parseIndicatorsGo (imap : List (Int × String)) :
    List Json → List (String × Indicator) → List Indicator × List (String × Indicator)
  | [], cmap => ([], cmap)
  | e :: rest, cmap =>
    if e.isObj = true then
      let ind := parseIndicator imap e
      let r := parseIndicatorsGo imap rest (insertAssoc ind.indicatorCategory ind cmap)
      (ind :: r.1, r.2)
    else parseIndicatorsGo imap rest cmap

/-- SummaryCard::parseIndicators (summaryCard.cpp:258): null data gives an
empty result, a non-array value is wrapped as a one-element array. -/
def parseIndicators (imap : List (Int × String))
    (cmap : List (String × Indicator)) (data : Json) :
    List Indicator × List (String × Indicator) :=
  if data.isNull = true then ([], cmap)
  else
    match data with
    | .arr elems => parseIndicatorsGo imap elems cmap
    | other => parseIndicatorsGo imap [other] cmap

/-- SummaryCard (summaryCard.hh).  The field defaults model the
default-constructed card (the default constructor body sets
`rawJsonData = json::array()`, summaryCard.cpp:11); the in-class
initialiser gives `indicatorsMap` the known table. -/
structure SummaryCard where
  rawData : String := ""
  rawJsonData : Json := Json.arr []
  indicatorsMap : List (Int × String) := defaultIndicatorsMap
  indicatorVector : List Indicator := []
  categoryToIndicatorMap : List (String × Indicator) := []
  schoolName : String := ""
  year : String := ""

/-- SummaryCard::appendRawData (summaryCard.cpp:37), the streaming body
append used by the transport write callback. -/
def SummaryCard.appendRawData (c : SummaryCard) (data : String) : SummaryCard :=
  { c with rawData := c.rawData ++ data }

/-- SummaryCard::clear (summaryCard.cpp:55): every member is cleared,
including the id→category table `indicatorsMap` and the metadata. -/
def SummaryCard.clear (c : SummaryCard) : SummaryCard :=
  { rawData := "",
    rawJsonData := c.rawJsonData.clearJson,
    indicatorsMap := [],
    indicatorVector := [],
    categoryToIndicatorMap := [],
    schoolName := "",
    year := "" }

/-- The external JSON parser (`json::parse`), which the code calls inside
a `try` block; `Except.error` models the thrown `json::parse_error`. -/
abbrev JsonParse := String → Except String Json

/-- The body of the `try` block of SummaryCard::parseRawData
(summaryCard.cpp:41): the parse error escapes uncaught here. -/
def SummaryCard.parseRawDataTry (parse : JsonParse) (c : SummaryCard) :
    Except String SummaryCard :=
  if c.rawData = ("") then Except.ok c
  else
    match parse c.rawData with
    | Except.ok j =>
        Except.ok { c with
          rawJsonData := j,
          indicatorVector := (parseIndicators c.indicatorsMap c.categoryToIndicatorMap j).1,
          categoryToIndicatorMap := (parseIndicators c.indicatorsMap c.categoryToIndicatorMap j).2 }
    | Except.error e => Except.error e

/-- SummaryCard::parseRawData with the `catch (json::parse_error)` handler
made explicit: the handler logs and sets `rawJsonData = json::array()`
(it does not touch `indicatorVector`). -/
def SummaryCard.parseRawDataE (parse : JsonParse) (c : SummaryCard) :
    Except String SummaryCard :=
  match SummaryCard.parseRawDataTry parse c with
  | Except.ok c' => Except.ok c'
  | Except.error _ => Except.ok { c with rawJsonData := Json.arr [] }

/-- SummaryCard::parseRawData (summaryCard.cpp:41) as the state
transformer it computes. -/
def SummaryCard.parseRawData (parse : JsonParse) (c : SummaryCard) : SummaryCard :=
  if c.rawData = ("") then c
  else
    match parse c.rawData with
    | Except.ok j =>
        { c with
          rawJsonData := j,
          indicatorVector := (parseIndicators c.indicatorsMap c.categoryToIndicatorMap j).1,
          categoryToIndicatorMap := (parseIndicators c.indicatorsMap c.categoryToIndicatorMap j).2 }
    | Except.error _ => { c with rawJsonData := Json.arr [] }

/-- The stderr diagnostics of one SummaryCard::parseRawData call
(the `catch` branch prints a parse-error line). -/
def SummaryCard.parseErrorLog (parse : JsonParse) (c : SummaryCard) : List String :=
  if c.rawData = ("") then []
  else
    match parse c.rawData with
    | Except.ok _ => []
    | Except.error e => [("JSON Parse Error: ") ++ e]

/-- The string constructor SummaryCard::SummaryCard(const std::string&)
(summaryCard.cpp:17): `rawData` is the body, `rawJsonData` is the
default-constructed `json` (null); the body runs `parseRawData()` and
then assigns `indicatorVector = parseIndicators(rawJsonData)` again. -/
def decodeCard (parse : JsonParse) (s : String) : SummaryCard :=
  let c0 : SummaryCard := { rawData := s, rawJsonData := Json.null }
  let c1 := SummaryCard.parseRawData parse c0
  { c1 with
    indicatorVector :=
      (parseIndicators c1.indicatorsMap c1.categoryToIndicatorMap c1.rawJsonData).1,
    categoryToIndicatorMap :=
      (parseIndicators c1.indicatorsMap c1.categoryToIndicatorMap c1.rawJsonData).2 }

/-- The diagnostics of the decode performed by the string constructor. -/
def decodeCardLog (parse : JsonParse) (s : String) : List String :=
  SummaryCard.parseErrorLog parse { rawData := s, rawJsonData := Json.null }

/-- The subset of CURLcode values the fetch path returns or tests. -/
inductive CURLcode where
  | ok
  | httpReturnedError
  | gotNothing
  | failedInit
  | operationTimedout
  | couldntResolveHost
  | couldntConnect
  | recvError
  | sendError
deriving DecidableEq

/-- `raw.find_first_not_of(" \t\r\n")` expressed on the character list:
the first byte outside the four-character whitespace set, `none` for the
`npos` case. -/
def firstNonWhitespace (s : String) : Option Char :=
  s.toList.find? (fun c => !(c == ' ' || c == '\t' || c == '\r' || c == '\n'))

/-- fetchSummaryCard constants (CaliforniaDashboardAPI.cpp:409). -/
def MAX_RETRIES : Nat := 3

/-- fetchSummaryCard constants (CaliforniaDashboardAPI.cpp:410), in ms. -/
def BASE_DELAY_MS : Nat := 250

/-- The state mutation and backoff delay of one retry-loop iteration head
(CaliforniaDashboardAPI.cpp:417): for attempt > 0 the card is cleared via
SummaryCard::clear and the worker sleeps BASE_DELAY_MS * 2^(attempt-1). -/
def retryStep (attempt : Nat) (card : SummaryCard) : SummaryCard × Nat :=
  if 0 < attempt then (SummaryCard.clear card, BASE_DELAY_MS * 2 ^ (attempt - 1))
  else (card, 0)

/-- The tail of fetchSummaryCard after a successful transport attempt
(CaliforniaDashboardAPI.cpp:435): HTTP status gate, empty-body gate,
JSON-shape gate, then the decode.  The result records the returned code,
the final card, and whether the decoder was invoked. -/
def fetchPostTransport (parse : JsonParse) (httpCode : Int) (card : SummaryCard) :
    CURLcode × SummaryCard × Bool :=
  if httpCode < 200 ∨ 300 ≤ httpCode then (CURLcode.httpReturnedError, card, false)
  else if card.rawData = ("") then (CURLcode.gotNothing, card, false)
  else
    match firstNonWhitespace card.rawData with
    | none => (CURLcode.gotNothing, card, false)
    | some c =>
      if c ≠ Char.ofNat 123 ∧ c ≠ '[' then (CURLcode.gotNothing, card, false)
      else (CURLcode.ok, SummaryCard.parseRawData parse card, true)

/-- `url.rfind(prefix, 0) == 0`: the scheme-prefix test of loadInURLs,
expressed on the character list so it evaluates by kernel reduction. -/
def strBeginsWith (p s : String) : Bool := List.isPrefixOf p.toList s.toList

/-- The URL filter of loadInURLs (CaliforniaDashboardAPI.cpp:100): drop
empty strings and strings without an http / https / ftp scheme. -/
def isValidURL (url : String) : Bool :=
  !(url == (""))
    && (strBeginsWith ("https://") url || strBeginsWith ("http://") url
        || strBeginsWith ("ftp://") url)

/-- The URLs loadInURLs appends to `urls_`: exactly the valid ones. -/
def loadedURLs (urls : List String) : List String := urls.filter isValidURL

/-- The sequence of slot indices obtained by n atomic fetch-add operations
on `next_slot_` starting at `base` (CaliforniaDashboardAPI.cpp:311): each
of the n URL-processing events atomically reads the counter and bumps it,
in some interleaving; the sequence of returned values is the same for
every interleaving. -/
def fetchAddTrace : Nat → Nat → List Nat
  | _, 0 => []
  | base, n + 1 => base :: fetchAddTrace (base + 1) n

/-- Observable outcome of one runFullURLFetch call: the returned Bool, the
final size of allSummaryCardsVector, the slots claimed by workers, and the
per-URL transport results (which the workers discard). -/
structure RunOutcome where
  ok : Bool
  outputLen : Nat
  claimedSlots : List Nat
  fetchCodes : List CURLcode

/-- runFullURLFetch (CaliforniaDashboardAPI.cpp:125) over the loaded URL
list: fail on an empty list; resize the output to base + total; fail if a
worker's curl_easy_init or pthread_create fails (the vector stays
resized); otherwise the call returns true regardless of the per-URL fetch
results.  With at least one worker spawned (n = min(poolSize, total) ≥ 1)
the workers drain all total URLs from the queue, each claiming one slot
by fetch-add; with zero workers (pool size 0) the queue is closed with no
consumers, so nothing is claimed or fetched while the call still returns
true and the vector keeps its resized length.  The claimed slots of the
early-failure branches are not modelled (no verified property reads them
there). -/
def runFullURLFetchModel (base : Nat) (loaded : List String) (poolSize : Nat)
    (curlInitOk : Nat → Bool) (spawnOk : Nat → Bool)
    (fetch : String → CURLcode) : RunOutcome :=
  if loaded.isEmpty then
    { ok := false, outputLen := base, claimedSlots := [], fetchCodes := [] }
  else
    let total := loaded.length
    let n := min poolSize total
    if (List.range n).all curlInitOk = false then
      { ok := false, outputLen := base + total, claimedSlots := [], fetchCodes := [] }
    else if (List.range n).all spawnOk = false then
      { ok := false, outputLen := base + total, claimedSlots := [], fetchCodes := [] }
    else
      { ok := true, outputLen := base + total,
        claimedSlots := if n = 0 then [] else fetchAddTrace base total,
        fetchCodes := if n = 0 then [] else loaded.map fetch }

/-- Constructor defaults (CaliforniaDashboardAPI.hh:30). -/
def DEFAULT_POOL_SIZE : Nat := 20

/-- Constructor defaults (CaliforniaDashboardAPI.hh:31). -/
def DEFAULT_MAX_REQUESTS_PER_SEC : Rat := 20

/-- Constructor defaults (CaliforniaDashboardAPI.hh:32), in ms. -/
def DEFAULT_TIMEOUT_MS : Nat := 30000

/-- The fast path of acquireToken (CaliforniaDashboardAPI.cpp:361):
a rate of at least 1000 requests/second disables the limiter. -/
def acquireTokenFastPath (maxRequestsPerSec : Rat) : Bool :=
  decide (1000 ≤ maxRequestsPerSec)

/-- Concrete decoder input: an indicator entry whose id exceeds the int
range (2^32 + 1). -/
def entryBigId : Json :=
  Json.obj [(("indicatorId"), Json.num (JNum.uns 4294967297))]

/-- Concrete decoder input: an indicator entry with id 3. -/
def entryId3 : Json :=
  Json.obj [(("indicatorId"), Json.num (JNum.uns 3))]

/-- Concrete primary block whose cdsCode field holds a number. -/
def primaryNumCds : Json :=
  Json.obj [(("cdsCode"), Json.num (JNum.uns 12345))]

/-- Concrete card with metadata assigned and the default table (the state
of a card before a retry attempt). -/
def cardFrame : SummaryCard := { schoolName := ("Pomona High School") }

/-- A parse outcome that always fails, exercising the catch branch. -/
def parseAlwaysFails : JsonParse := fun _ => Except.error ("unexpected character")

/-- A parse outcome producing the one-entry array [entryId3]. -/
def parseConstArr : JsonParse := fun _ => Except.ok (Json.arr [entryId3])

/-- Concrete worker predicate: every index succeeds. -/
def allWorkersOk : Nat → Bool := fun _ => true

/-- Concrete URL list with one valid URL. -/
def urlListW : List String :=
  [("https://api.caschooldashboard.org/Reports/1/3/SummaryCards")]

/-- Concrete fetch outcome: every URL succeeds. -/
def fetchAllOk : String → CURLcode := fun _ => CURLcode.ok

/-- Concrete fetch outcome: every URL fails at transport. -/
def fetchAllFail : String → CURLcode := fun _ => CURLcode.gotNothing

/-! Helper lemmas (shared; not tied to a single claim). -/

theorem specIndicatorCategory_unknown_iff (r : Nat) :
    specIndicatorCategory r = ("UNKNOWN") ↔ ¬ (1 ≤ r ∧ r ≤ 8) := by
  unfold specIndicatorCategory
  split_ifs with h1 h2 h3 h4 h5 h6 h7 h8 <;>
    first
      | exact iff_of_false (by decide) (fun hb => hb ⟨by omega, by omega⟩)
      | exact iff_of_true rfl (by omega)

theorem lookupAssocInt_default (k : Int) :
    lookupAssocInt defaultIndicatorsMap k =
      if 1 ≤ k ∧ k ≤ 8 then some (specIndicatorCategory k.toNat) else none := by
  by_cases h : 1 ≤ k ∧ k ≤ 8
  · rw [if_pos h]
    obtain ⟨h1, h2⟩ := h
    interval_cases k <;> decide
  · rw [if_neg h]
    simp only [defaultIndicatorsMap, lookupAssocInt]
    split_ifs with h1 h2 h3 h4 h5 h6 h7 h8 <;>
      first
        | rfl
        | (exfalso; exact h ⟨by omega, by omega⟩)

theorem lookupAssocInt_default_intOfSizeT (n : Nat) :
    lookupAssocInt defaultIndicatorsMap (intOfSizeT n) =
      if 1 ≤ n % 4294967296 ∧ n % 4294967296 ≤ 8 then
        some (specIndicatorCategory (n % 4294967296))
      else none := by
  rw [lookupAssocInt_default]
  unfold intOfSizeT wrap32
  have hcast : ((n : Int)) % 4294967296 = ((n % 4294967296 : Nat) : Int) := by
    omega
  rw [hcast]
  have hr : n % 4294967296 < 4294967296 := Nat.mod_lt _ (by norm_num)
  by_cases hs : ((n % 4294967296 : Nat) : Int) < 2147483648
  · simp only [hs, if_true]
    by_cases hc : 1 ≤ n % 4294967296 ∧ n % 4294967296 ≤ 8
    · rw [if_pos (by constructor <;> omega), if_pos hc, Int.toNat_natCast]
    · rw [if_neg (by intro hx; exact hc ⟨by omega, by omega⟩), if_neg hc]
  · simp only [hs, if_false]
    rw [if_neg (by intro hx; omega), if_neg (by intro hx; omega)]

theorem parseIndicator_fields (imap : List (Int × String)) (entry : Json)
    (h : entry.isObj = true) :
    (parseIndicator imap entry).indicatorId = safeSizeT entry ("indicatorId") 0 ∧
    (parseIndicator imap entry).indicatorCategory =
      (match lookupAssocInt imap (intOfSizeT (safeSizeT entry ("indicatorId") 0)) with
       | some s => s
       | none => ("UNKNOWN")) := by
  unfold parseIndicator
  rw [if_neg (by simp [h])]
  dsimp only []
  constructor
  · rw [apply_ite Indicator.indicatorId]
    dsimp only []
    rw [ite_self]
  · rw [apply_ite Indicator.indicatorCategory]
    dsimp only []
    rw [ite_self]

/-- C8 counterexample: the claimed tuning defaults (timeout 10000 ms, pool
size 50, maxRequestsPerSec 1000.0 triggering the limiter fast path) do not
match the constructor defaults of the code. -/
theorem tuningDefaults_claim_cex :
    ¬ (DEFAULT_TIMEOUT_MS = 10000 ∧ DEFAULT_POOL_SIZE = 50 ∧
       DEFAULT_MAX_REQUESTS_PER_SEC = 1000 ∧
       acquireTokenFastPath DEFAULT_MAX_REQUESTS_PER_SEC = true) := by
  intro h
  exact absurd h.1 (by decide)

/-- C8 (amended): the constructor's tuning defaults are per-request
timeout 30000 ms, pool size 20 and maxRequestsPerSec 20.0, and the default
rate does not trigger the limiter's fast path (20 < 1000), so rate
limiting stays enabled by default. -/
theorem tuningDefaults_actual :
    DEFAULT_TIMEOUT_MS = 30000 ∧ DEFAULT_POOL_SIZE = 20 ∧
    DEFAULT_MAX_REQUESTS_PER_SEC = 20 ∧
    acquireTokenFastPath DEFAULT_MAX_REQUESTS_PER_SEC = false := by
  refine ⟨rfl, rfl, rfl, ?_⟩
  decide

/-- C4 counterexample: the retry step for attempt 1 does not leave the
id→category table or the metadata unchanged — `clear()` wipes both (here
on a card with the default table and a school name set). -/
theorem retryStep_frame_claim_cex :
    (retryStep 1 cardFrame).1.indicatorsMap ≠ cardFrame.indicatorsMap ∧
    (retryStep 1 cardFrame).1.schoolName ≠ cardFrame.schoolName := by
  constructor <;> decide

/-- C4 (amended): for every attempt k > 0 the retry step sleeps
BASE_DELAY_MS * 2^(k-1) milliseconds (250 ms, then 500 ms, then 1000 ms)
and resets the whole card via `clear()`: the raw body, the parsed JSON
(type-preserving zeroing), the indicator vector, the category index, the
id→category table, and both metadata fields — not only the raw body. -/
theorem retryStep_clears_whole_card (k : Nat) (c : SummaryCard) (hk : 0 < k) :
    (retryStep k c).2 = BASE_DELAY_MS * 2 ^ (k - 1) ∧
    (retryStep k c).1.rawData = ("") ∧
    (retryStep k c).1.rawJsonData = c.rawJsonData.clearJson ∧
    (retryStep k c).1.indicatorsMap = [] ∧
    (retryStep k c).1.indicatorVector = [] ∧
    (retryStep k c).1.categoryToIndicatorMap = [] ∧
    (retryStep k c).1.schoolName = ("") ∧
    (retryStep k c).1.year = ("") := by
  unfold retryStep
  rw [if_pos hk]
  exact ⟨rfl, rfl, rfl, rfl, rfl, rfl, rfl, rfl⟩

/-- Witness for the amended C4 theorem at attempt 1 on a concrete card:
the delay is 250 ms and the table is wiped. -/
theorem retryStep_clears_whole_card_witness :
    (retryStep 1 cardFrame).2 = 250 ∧ (retryStep 1 cardFrame).1.indicatorsMap = [] := by
  have h := retryStep_clears_whole_card 1 cardFrame (by decide)
  exact ⟨h.1, h.2.2.2.1⟩

/-- C1 counterexample: the decoded indicator with indicatorId 2^32 + 1
(outside the table {1..8}) gets category CHRONIC_ABSENTEEISM, not UNKNOWN:
the lookup truncates the id with `static_cast<int>` first. -/
theorem parseIndicator_unknown_claim_cex :
    (parseIndicator defaultIndicatorsMap entryBigId).indicatorId = 4294967297 ∧
    ¬ (1 ≤ (parseIndicator defaultIndicatorsMap entryBigId).indicatorId ∧
        (parseIndicator defaultIndicatorsMap entryBigId).indicatorId ≤ 8) ∧
    (parseIndicator defaultIndicatorsMap entryBigId).indicatorCategory
      = ("CHRONIC_ABSENTEEISM") ∧
    (parseIndicator defaultIndicatorsMap entryBigId).indicatorCategory ≠ ("UNKNOWN") := by
  refine ⟨by decide, by decide, by decide, by decide⟩

/-- C1 (amended): for every decoded indicator entry (a JSON object), the
category is determined by the id reduced modulo 2^32 (the effect of the
`static_cast<int>` applied before the table lookup): it equals the table
name of `indicatorId % 2^32` when that residue is in {1..8}, and it is
UNKNOWN exactly when the residue is not in {1..8}.  In particular ids in
{1..8} get their table name, but ids above the int range whose residue
falls in {1..8}, and negative JSON ids whose wrapped residue falls in
{1..8}, do not decode to UNKNOWN. -/
theorem parseIndicator_category_unknown_iff (entry : Json) (h : entry.isObj = true) :
    (parseIndicator defaultIndicatorsMap entry).indicatorCategory
      = specIndicatorCategory
          ((parseIndicator defaultIndicatorsMap entry).indicatorId % 4294967296) ∧
    ((parseIndicator defaultIndicatorsMap entry).indicatorCategory = ("UNKNOWN") ↔
      ¬ (1 ≤ (parseIndicator defaultIndicatorsMap entry).indicatorId % 4294967296 ∧
          (parseIndicator defaultIndicatorsMap entry).indicatorId % 4294967296 ≤ 8)) := by
  obtain ⟨hid, hcat⟩ := parseIndicator_fields defaultIndicatorsMap entry h
  rw [hid, hcat, lookupAssocInt_default_intOfSizeT]
  have hmain :
      (match
          (if 1 ≤ safeSizeT entry ("indicatorId") 0 % 4294967296 ∧
              safeSizeT entry ("indicatorId") 0 % 4294967296 ≤ 8 then
            some (specIndicatorCategory (safeSizeT entry ("indicatorId") 0 % 4294967296))
          else none) with
        | some s => s
        | none => ("UNKNOWN"))
        = specIndicatorCategory (safeSizeT entry ("indicatorId") 0 % 4294967296) := by
    by_cases hc : 1 ≤ safeSizeT entry ("indicatorId") 0 % 4294967296 ∧
        safeSizeT entry ("indicatorId") 0 % 4294967296 ≤ 8
    · rw [if_pos hc]
    · rw [if_neg hc]
      exact ((specIndicatorCategory_unknown_iff _).mpr hc).symm
  rw [hmain]
  exact ⟨rfl, specIndicatorCategory_unknown_iff _⟩

/-- Witness for the amended C1 theorem at the concrete entry with id 3:
the residue is 3 and the category is the table name for 3. -/
theorem parseIndicator_category_unknown_iff_witness :
    (parseIndicator defaultIndicatorsMap entryId3).indicatorCategory
      = specIndicatorCategory
          ((parseIndicator defaultIndicatorsMap entryId3).indicatorId % 4294967296) ∧
    ((parseIndicator defaultIndicatorsMap entryId3).indicatorCategory = ("UNKNOWN") ↔
      ¬ (1 ≤ (parseIndicator defaultIndicatorsMap entryId3).indicatorId % 4294967296 ∧
          (parseIndicator defaultIndicatorsMap entryId3).indicatorId % 4294967296 ≤ 8)) :=
  parseIndicator_category_unknown_iff entryId3 rfl

theorem isNumberUnsigned_false_of_not_number (v : Json) (h : v.isNumber = false) :
    v.isNumberUnsigned = false := by
  cases v <;> simp_all [Json.isNumber, Json.isNumberUnsigned]

/-- C7: every scalar safe read applies the rules uniformly.  A missing key
or a stored null yields the type's default (0 / 0.0 / false / "").  A
string field on a present non-null non-string value yields the JSON
serialization of the value.  A numeric field on a non-number and a
boolean field on a non-boolean yield the default with no coercion. -/
theorem safeReads_uniform (o : Json) (k : String) :
    ((jContains o k = false ∨ (jIndex o k).isNull = true) →
      safeString o k ("") = ("") ∧ safeInt o k 0 = 0 ∧ safeLong o k 0 = 0 ∧
      safeSizeT o k 0 = 0 ∧ safeFloat o k 0 = 0 ∧ safeBool o k false = false) ∧
    (∀ v : Json, jLookup o k = some v → v.isNull = false →
      (v.isString = false → safeString o k ("") = Json.dump v) ∧
      (v.isNumber = false →
        safeInt o k 0 = 0 ∧ safeLong o k 0 = 0 ∧ safeSizeT o k 0 = 0 ∧
        safeFloat o k 0 = 0) ∧
      (v.isBoolean = false → safeBool o k false = false)) := by
  constructor
  · intro h
    unfold safeString safeInt safeLong safeSizeT safeFloat safeBool
    rw [if_pos h, if_pos h, if_pos h, if_pos h, if_pos h, if_pos h]
    exact ⟨rfl, rfl, rfl, rfl, rfl, rfl⟩
  · intro v hv hnull
    have hidx : jIndex o k = v := by unfold jIndex; rw [hv]; rfl
    have hcond : ¬ (jContains o k = false ∨ (jIndex o k).isNull = true) := by
      unfold jContains
      rw [hv, hidx, hnull]
      simp
    refine ⟨?_, ?_, ?_⟩
    · intro hs
      unfold safeString
      rw [if_neg hcond, hidx, if_neg (by rw [hs]; simp)]
    · intro hn
      have hnu := isNumberUnsigned_false_of_not_number v hn
      refine ⟨?_, ?_, ?_, ?_⟩
      · unfold safeInt
        rw [if_neg hcond, hidx, if_neg (by rw [hn]; simp)]
      · unfold safeLong
        rw [if_neg hcond, hidx, if_neg (by rw [hn]; simp)]
      · unfold safeSizeT
        rw [if_neg hcond, hidx, if_neg (by rw [hnu]; simp), if_neg (by rw [hn]; simp)]
      · unfold safeFloat
        rw [if_neg hcond, hidx, if_neg (by rw [hn]; simp)]
    · intro hb
      unfold safeBool
      rw [if_neg hcond, hidx, if_neg (by rw [hb]; simp)]

/-- Witness for C7 at concrete inputs: a numeric cdsCode stringifies to
its serialization ("12345"), and a missing key yields the int default. -/
theorem safeReads_uniform_witness :
    safeString primaryNumCds ("cdsCode") ("") = ("12345") ∧
    safeInt (Json.obj []) ("missing") 0 = 0 := by
  constructor
  · have h := ((safeReads_uniform primaryNumCds ("cdsCode")).2
      (Json.num (JNum.uns 12345)) rfl rfl).1 rfl
    rw [h]
    decide
  · exact ((safeReads_uniform (Json.obj []) ("missing")).1 (Or.inl rfl)).2.1

theorem parseIndicatorsGo_nil_unknown (es : List Json) :
    ∀ (cmap : List (String × Indicator)) (ind : Indicator),
      ind ∈ (parseIndicatorsGo [] es cmap).1 → ind.indicatorCategory = ("UNKNOWN") := by
  induction es with
  | nil =>
    intro cmap ind hmem
    simp [parseIndicatorsGo] at hmem
  | cons e rest ih =>
    intro cmap ind hmem
    by_cases he : e.isObj = true
    · simp only [parseIndicatorsGo, he, if_pos] at hmem
      rcases List.mem_cons.mp hmem with h1 | h2
      · rw [h1, (parseIndicator_fields [] e he).2]
        rfl
      · exact ih _ _ h2
    · simp only [parseIndicatorsGo] at hmem
      rw [if_neg he] at hmem
      exact ih _ _ hmem

theorem parseIndicators_nil_unknown (cmap : List (String × Indicator)) (data : Json)
    (ind : Indicator) (hmem : ind ∈ (parseIndicators [] cmap data).1) :
    ind.indicatorCategory = ("UNKNOWN") := by
  unfold parseIndicators at hmem
  by_cases hn : data.isNull = true
  · rw [if_pos hn] at hmem
    simp at hmem
  · rw [if_neg hn] at hmem
    cases data <;> exact parseIndicatorsGo_nil_unknown _ _ _ hmem

/-- C10: SummaryCard::clear() empties the member id→category table along
with the data fields, so on a cleared card (in particular one that went
through a retry attempt) every indicator parsed afterwards — directly or
through a reparse of a freshly appended body — gets category UNKNOWN
regardless of its id. -/
theorem clear_empties_indicatorsMap (c : SummaryCard) (entry : Json) :
    (SummaryCard.clear c).indicatorsMap = [] ∧
    (entry.isObj = true →
      (parseIndicator (SummaryCard.clear c).indicatorsMap entry).indicatorCategory
        = ("UNKNOWN")) ∧
    (∀ (parse : JsonParse) (s : String) (ind : Indicator),
      ind ∈ (SummaryCard.parseRawData parse
              ((SummaryCard.clear c).appendRawData s)).indicatorVector →
      ind.indicatorCategory = ("UNKNOWN")) := by
  refine ⟨rfl, ?_, ?_⟩
  · intro h
    rw [(parseIndicator_fields _ entry h).2]
    rfl
  · intro parse s ind hmem
    unfold SummaryCard.parseRawData at hmem
    by_cases hs : ((SummaryCard.clear c).appendRawData s).rawData = ("")
    · rw [if_pos hs] at hmem
      simp [SummaryCard.appendRawData, SummaryCard.clear] at hmem
    · rw [if_neg hs] at hmem
      cases hp : parse ((SummaryCard.clear c).appendRawData s).rawData with
      | ok j =>
          rw [hp] at hmem
          exact parseIndicators_nil_unknown _ _ _ hmem
      | error e =>
          rw [hp] at hmem
          simp [SummaryCard.appendRawData, SummaryCard.clear] at hmem

/-- Witness for C10 at concrete inputs: on a cleared card the entry with
id 3 (a known id) decodes to UNKNOWN, both directly and through a reparse
of an appended body. -/
theorem clear_empties_indicatorsMap_witness :
    (SummaryCard.clear cardFrame).indicatorsMap = [] ∧
    (parseIndicator (SummaryCard.clear cardFrame).indicatorsMap entryId3).indicatorCategory
      = ("UNKNOWN") ∧
    (parseIndicator ([] : List (Int × String)) entryId3).indicatorCategory = ("UNKNOWN") := by
  have h := clear_empties_indicatorsMap cardFrame entryId3
  refine ⟨h.1, h.2.1 rfl, ?_⟩
  have hveq : (SummaryCard.parseRawData parseConstArr
      ((SummaryCard.clear cardFrame).appendRawData ("[x]"))).indicatorVector
      = [parseIndicator ([] : List (Int × String)) entryId3] := rfl
  exact h.2.2 parseConstArr ("[x]") (parseIndicator ([] : List (Int × String)) entryId3)
    (hveq ▸ List.mem_singleton_self _)

theorem parseIndicatorsGo_fst_cmap_indep (es : List Json) :
    ∀ (imap : List (Int × String)) (cm cm' : List (String × Indicator)),
      (parseIndicatorsGo imap es cm).1 = (parseIndicatorsGo imap es cm').1 := by
  induction es with
  | nil => intro imap cm cm'; rfl
  | cons e rest ih =>
    intro imap cm cm'
    by_cases he : e.isObj = true
    · simp only [parseIndicatorsGo]
      rw [if_pos he, if_pos he]
      dsimp only []
      exact congrArg _ (ih imap _ _)
    · simp only [parseIndicatorsGo]
      rw [if_neg he, if_neg he]
      exact ih imap _ _

theorem parseIndicators_fst_cmap_indep (imap : List (Int × String))
    (cm cm' : List (String × Indicator)) (data : Json) :
    (parseIndicators imap cm data).1 = (parseIndicators imap cm' data).1 := by
  unfold parseIndicators
  by_cases hn : data.isNull = true
  · rw [if_pos hn, if_pos hn]
  · rw [if_neg hn, if_neg hn]
    cases data <;> exact parseIndicatorsGo_fst_cmap_indep _ _ _ _

/-- C9: decoding is idempotent and deterministic — re-running
parseRawData on a card whose body has already been decoded yields the
same indicator sequence (the decode reads only the raw body and the
id→category table, neither of which it modifies, and the indicator list
it produces does not depend on the accumulated category index). -/
theorem parseRawData_idempotent (parse : JsonParse) (c : SummaryCard) :
    (SummaryCard.parseRawData parse (SummaryCard.parseRawData parse c)).indicatorVector
      = (SummaryCard.parseRawData parse c).indicatorVector := by
  unfold SummaryCard.parseRawData
  by_cases h : c.rawData = ("")
  · rw [if_pos h, if_pos h]
  · rw [if_neg h]
    cases hp : parse c.rawData with
    | ok j =>
        dsimp only []
        rw [if_neg h, hp]
        dsimp only []
        exact parseIndicators_fst_cmap_indep _ _ _ _
    | error e =>
        dsimp only []
        rw [if_neg h, hp]

/-- C3: decoding is total.  With the thrown parse error made explicit,
parseRawData always returns normally (the catch handler absorbs every
parse failure, for every card state), and whenever parsing of the raw
body fails the decoded card's indicator list is empty after the decode
and — when a parse was actually attempted, i.e. the body is non-empty —
a diagnostic line is emitted. -/
theorem parseRawData_total_and_parse_failure_empty :
    (∀ (parse : JsonParse) (c : SummaryCard),
        SummaryCard.parseRawDataE parse c
          = Except.ok (SummaryCard.parseRawData parse c)) ∧
    (∀ (parse : JsonParse) (s e : String),
        parse s = Except.error e →
        (decodeCard parse s).indicatorVector = [] ∧
        (s ≠ ("") → decodeCardLog parse s ≠ [])) := by
  constructor
  · intro parse c
    unfold SummaryCard.parseRawDataE SummaryCard.parseRawDataTry SummaryCard.parseRawData
    by_cases h : c.rawData = ("")
    · rw [if_pos h, if_pos h]
    · rw [if_neg h, if_neg h]
      cases hp : parse c.rawData with
      | ok j => rfl
      | error e => rfl
  · intro parse s e hpe
    constructor
    · unfold decodeCard SummaryCard.parseRawData
      by_cases hs : s = ("")
      · dsimp only []
        rw [if_pos hs]
        rfl
      · dsimp only []
        rw [if_neg hs, hpe]
        rfl
    · intro hs
      unfold decodeCardLog SummaryCard.parseErrorLog
      dsimp only []
      rw [if_neg hs, hpe]
      simp

/-- Witness for C3 at concrete inputs: a failing parse on the body
"garbage" returns normally with an empty indicator list and a logged
diagnostic. -/
theorem parseRawData_total_witness :
    SummaryCard.parseRawDataE parseAlwaysFails cardFrame
      = Except.ok (SummaryCard.parseRawData parseAlwaysFails cardFrame) ∧
    (decodeCard parseAlwaysFails ("garbage")).indicatorVector = [] ∧
    decodeCardLog parseAlwaysFails ("garbage") ≠ [] := by
  have h := parseRawData_total_and_parse_failure_empty
  have h2 := h.2 parseAlwaysFails ("garbage") ("unexpected character") rfl
  exact ⟨h.1 parseAlwaysFails cardFrame, h2.1, h2.2 (by decide)⟩

/-- C5: after a successful transport attempt, the decoder is invoked iff
the HTTP status is in 2xx, the body is non-empty, and the first byte
outside the set {space, tab, CR, LF} exists and is an opening brace or
bracket; in every other case an error code (never CURLE_OK) is returned
and the card is left untouched — in particular a card whose indicator
list was empty keeps it empty. -/
theorem fetchPostTransport_decode_iff (parse : JsonParse) (code : Int)
    (card : SummaryCard) :
    ((fetchPostTransport parse code card).2.2 = true ↔
      (200 ≤ code ∧ code < 300 ∧ card.rawData ≠ ("") ∧
        ∃ ch, firstNonWhitespace card.rawData = some ch ∧
          (ch = Char.ofNat 123 ∨ ch = '['))) ∧
    ((fetchPostTransport parse code card).2.2 = false →
      (fetchPostTransport parse code card).1 ≠ CURLcode.ok ∧
      (fetchPostTransport parse code card).2.1 = card ∧
      (card.indicatorVector = [] →
        (fetchPostTransport parse code card).2.1.indicatorVector = [])) := by
  unfold fetchPostTransport
  by_cases h1 : code < 200 ∨ 300 ≤ code
  · rw [if_pos h1]
    constructor
    · constructor
      · intro hx
        exact Bool.noConfusion hx
      · intro hx
        obtain ⟨ha, hb, -⟩ := hx
        omega
    · intro _
      exact ⟨fun hc => CURLcode.noConfusion hc, rfl, fun hv => hv⟩
  · rw [if_neg h1]
    by_cases h2 : card.rawData = ("")
    · rw [if_pos h2]
      constructor
      · constructor
        · intro hx
          exact Bool.noConfusion hx
        · intro hx
          exact absurd h2 hx.2.2.1
      · intro _
        exact ⟨fun hc => CURLcode.noConfusion hc, rfl, fun hv => hv⟩
    · rw [if_neg h2]
      cases hf : firstNonWhitespace card.rawData with
      | none =>
          dsimp only []
          constructor
          · constructor
            · intro hx
              exact Bool.noConfusion hx
            · intro hx
              obtain ⟨ch, hch, -⟩ := hx.2.2.2
              exact Option.noConfusion hch
          · intro _
            exact ⟨fun hc => CURLcode.noConfusion hc, rfl, fun hv => hv⟩
      | some ch =>
          dsimp only []
          by_cases h3 : ch ≠ Char.ofNat 123 ∧ ch ≠ '['
          · rw [if_pos h3]
            constructor
            · constructor
              · intro hx
                exact Bool.noConfusion hx
              · intro hx
                obtain ⟨ch', hch', hor⟩ := hx.2.2.2
                rw [Option.some_inj] at hch'
                subst hch'
                rcases hor with ho | ho
                · exact absurd ho h3.1
                · exact absurd ho h3.2
            · intro _
              exact ⟨fun hc => CURLcode.noConfusion hc, rfl, fun hv => hv⟩
          · rw [if_neg h3]
            push_neg at h3
            constructor
            · constructor
              · intro _
                refine ⟨by omega, by omega, h2, ch, rfl, ?_⟩
                by_cases hc : ch = Char.ofNat 123
                · exact Or.inl hc
                · exact Or.inr (h3 hc)
              · intro _
                rfl
            · intro hx
              exact Bool.noConfusion hx

/-- Witness for C5 at concrete inputs: HTTP status 404 yields no decode,
a non-CURLE_OK code, and an unchanged card. -/
theorem fetchPostTransport_decode_iff_witness :
    (fetchPostTransport parseConstArr 404 cardFrame).2.2 = false ∧
    (fetchPostTransport parseConstArr 404 cardFrame).1 ≠ CURLcode.ok ∧
    (fetchPostTransport parseConstArr 404 cardFrame).2.1 = cardFrame := by
  have h := fetchPostTransport_decode_iff parseConstArr 404 cardFrame
  have hdec : (fetchPostTransport parseConstArr 404 cardFrame).2.2 = false := by
    cases hb : (fetchPostTransport parseConstArr 404 cardFrame).2.2 with
    | false => rfl
    | true =>
        have hx := h.1.mp hb
        exact absurd hx.2.1 (by decide)
  exact ⟨hdec, (h.2 hdec).1, (h.2 hdec).2.1⟩

theorem range_all_iff (f : Nat → Bool) (n : Nat) :
    (List.range n).all f = true ↔ ∀ i, i < n → f i = true := by
  rw [List.all_eq_true]
  constructor
  · intro h i hi
    exact h i (List.mem_range.mpr hi)
  · intro h x hx
    exact h x (List.mem_range.mp hx)

theorem range_all_false_iff (f : Nat → Bool) (n : Nat) :
    (List.range n).all f = false ↔ ∃ i, i < n ∧ f i = false := by
  rw [Bool.eq_false_iff, Ne, range_all_iff]
  push_neg
  simp only [Bool.not_eq_true]

theorem fetchAddTrace_length (n : Nat) :
    ∀ base, (fetchAddTrace base n).length = n := by
  induction n with
  | zero => intro base; rfl
  | succ n ih => intro base; simp [fetchAddTrace, ih]

theorem fetchAddTrace_count (n : Nat) :
    ∀ (base slot : Nat),
      (fetchAddTrace base n).count slot
        = if base ≤ slot ∧ slot < base + n then 1 else 0 := by
  induction n with
  | zero =>
    intro base slot
    rw [if_neg (by omega)]
    rfl
  | succ n ih =>
    intro base slot
    simp only [fetchAddTrace]
    rw [List.count_cons, ih (base + 1) slot]
    simp only [beq_iff_eq]
    split_ifs <;> omega

/-- C2: whenever runFullURLFetch returns true on a list with n valid URLs
loaded and at least one worker is configured (pool size ≥ 1, as in every
constructor default), the output vector has exactly base + n elements
(base = its size before the run), and every slot in [base, base + n) is
claimed exactly once through the atomic next_slot_ fetch-add counter (the
n claim events produce the slots base, base+1, …, base+n−1 in every
interleaving). -/
theorem run_true_slots_exactly_once (base : Nat) (urls : List String)
    (poolSize : Nat) (curlInitOk spawnOk : Nat → Bool) (fetch : String → CURLcode)
    (hp : 1 ≤ poolSize)
    (h : (runFullURLFetchModel base (loadedURLs urls) poolSize curlInitOk spawnOk fetch).ok
          = true) :
    (runFullURLFetchModel base (loadedURLs urls) poolSize curlInitOk spawnOk fetch).outputLen
      = base + (loadedURLs urls).length ∧
    ((runFullURLFetchModel base (loadedURLs urls) poolSize curlInitOk
        spawnOk fetch).claimedSlots).length = (loadedURLs urls).length ∧
    (∀ slot, base ≤ slot → slot < base + (loadedURLs urls).length →
      ((runFullURLFetchModel base (loadedURLs urls) poolSize curlInitOk
          spawnOk fetch).claimedSlots).count slot = 1) := by
  unfold runFullURLFetchModel at h ⊢
  by_cases hl : (loadedURLs urls).isEmpty
  · rw [if_pos hl] at h
    exact Bool.noConfusion h
  · have hne : loadedURLs urls ≠ [] := by
      intro he
      rw [he] at hl
      exact hl rfl
    have hlen : 0 < (loadedURLs urls).length := List.length_pos.mpr hne
    have h0 : ¬ (min poolSize (loadedURLs urls).length = 0) := by omega
    rw [if_neg hl] at h ⊢
    dsimp only [] at h ⊢
    cases hi : (List.range (min poolSize (loadedURLs urls).length)).all curlInitOk with
    | false =>
        rw [hi, if_pos rfl] at h
        exact Bool.noConfusion h
    | true =>
        rw [hi, if_neg (by decide : ¬ (true = false))] at h
        rw [if_neg (by decide : ¬ (true = false))]
        cases hs : (List.range (min poolSize (loadedURLs urls).length)).all spawnOk with
        | false =>
            rw [hs, if_pos rfl] at h
            exact Bool.noConfusion h
        | true =>
            rw [hs, if_neg (by decide : ¬ (true = false))] at h
            rw [if_neg (by decide : ¬ (true = false))]
            dsimp only []
            rw [if_neg h0]
            refine ⟨rfl, fetchAddTrace_length _ _, ?_⟩
            intro slot h1 h2
            rw [fetchAddTrace_count, if_pos ⟨h1, h2⟩]

/-- Witness for C2 at a concrete run of one valid URL: the run succeeds,
the output grows by one, and slot 0 is claimed exactly once. -/
theorem run_true_slots_exactly_once_witness :
    (runFullURLFetchModel 0 (loadedURLs urlListW) 1 allWorkersOk allWorkersOk
      fetchAllOk).outputLen = 0 + (loadedURLs urlListW).length ∧
    ((runFullURLFetchModel 0 (loadedURLs urlListW) 1 allWorkersOk allWorkersOk
      fetchAllOk).claimedSlots).count 0 = 1 := by
  have h := run_true_slots_exactly_once 0 urlListW 1 allWorkersOk allWorkersOk
    fetchAllOk (by omega) (by decide)
  exact ⟨h.1, h.2.2 0 (by omega) (by decide)⟩

/-- C6: runFullURLFetch returns false only when the loaded URL list is
empty or a worker's curl handle init / pthread_create fails; whenever all
workers were set up and spawned, it returns true for every assignment of
per-URL fetch outcomes (the workers discard the per-URL results). -/
theorem runFullURLFetch_false_only_on_setup (base : Nat) (loaded : List String)
    (poolSize : Nat) (curlInitOk spawnOk : Nat → Bool) (fetch : String → CURLcode) :
    ((runFullURLFetchModel base loaded poolSize curlInitOk spawnOk fetch).ok = false →
      loaded = [] ∨
      (∃ i, i < min poolSize loaded.length ∧ curlInitOk i = false) ∨
      (∃ i, i < min poolSize loaded.length ∧ spawnOk i = false)) ∧
    (loaded ≠ [] →
      (∀ i, i < min poolSize loaded.length → curlInitOk i = true) →
      (∀ i, i < min poolSize loaded.length → spawnOk i = true) →
      ∀ fetchOther : String → CURLcode,
        (runFullURLFetchModel base loaded poolSize curlInitOk spawnOk
          fetchOther).ok = true) := by
  by_cases hl : loaded.isEmpty
  · constructor
    · intro _
      exact Or.inl (List.isEmpty_iff.mp hl)
    · intro hne
      exact absurd (List.isEmpty_iff.mp hl) hne
  · cases hi : (List.range (min poolSize loaded.length)).all curlInitOk with
    | false =>
        constructor
        · intro _
          exact Or.inr (Or.inl ((range_all_false_iff _ _).mp hi))
        · intro hne hinit hspawn fetchOther
          have hall : (List.range (min poolSize loaded.length)).all curlInitOk = true :=
            (range_all_iff _ _).mpr hinit
          rw [hi] at hall
          exact Bool.noConfusion hall
    | true =>
        cases hs : (List.range (min poolSize loaded.length)).all spawnOk with
        | false =>
            constructor
            · intro _
              exact Or.inr (Or.inr ((range_all_false_iff _ _).mp hs))
            · intro hne hinit hspawn fetchOther
              have hall : (List.range (min poolSize loaded.length)).all spawnOk = true :=
                (range_all_iff _ _).mpr hspawn
              rw [hs] at hall
              exact Bool.noConfusion hall
        | true =>
            constructor
            · intro hok
              unfold runFullURLFetchModel at hok
              rw [if_neg hl] at hok
              dsimp only [] at hok
              rw [hi, if_neg (fun hc => Bool.noConfusion hc)] at hok
              rw [hs, if_neg (fun hc => Bool.noConfusion hc)] at hok
              exact Bool.noConfusion hok
            · intro hne hinit hspawn fetchOther
              unfold runFullURLFetchModel
              rw [if_neg hl]
              dsimp only []
              rw [hi, if_neg (fun hc => Bool.noConfusion hc)]
              rw [hs, if_neg (fun hc => Bool.noConfusion hc)]

/-- Witness for C6: a run whose every fetch fails at transport still
returns true once all workers were set up (the setup-success facts are
established with a different fetch assignment, showing independence). -/
theorem runFullURLFetch_false_only_on_setup_witness :
    (runFullURLFetchModel 0 urlListW 20 allWorkersOk allWorkersOk fetchAllFail).ok
      = true := by
  have h := runFullURLFetch_false_only_on_setup 0 urlListW 20 allWorkersOk
    allWorkersOk fetchAllOk
  exact h.2 (by decide) (fun i _ => rfl) (fun i _ => rfl) fetchAllFail
